import Mathlib

/-
Verification of the ecosystem population simulator in ECOSIM.py.

The core of the program is the function run_simulation, a discrete-time
forward simulation with three coupled state variables: plants, herbivores
and predators. Each loop iteration reassigns the three variables in order
(plants, then herbivores, then predators) and appends the new values to
three lists. We embed that loop over the rationals, which model the real
arithmetic of the source exactly on the inputs considered here.
-/

/-- The twelve scalar inputs gathered by the sidebar sliders. The loop body
reads the rates and environmental modifiers; run_simulation receives the
initial populations and the step count as arguments. -/
structure SimulationParameters where
  plant_growth_rate : ℚ
  herbivore_birth_rate : ℚ
  predator_birth_rate : ℚ
  initial_plants : ℚ
  initial_herbivores : ℚ
  initial_predators : ℚ
  time_steps : ℕ
  water_availability : ℚ
  temperature_variation : ℚ
  soil_quality : ℚ
  human_impact : ℚ

/-- Raw plant update, the expression inside max on line 75 of ECOSIM.py. -/
def plants_update (p : SimulationParameters) (plants herbivores : ℚ) : ℚ :=
  plants + plants * p.plant_growth_rate * (1 + p.water_availability - 0.1 * p.human_impact)
    - herbivores * 0.01

/-- Raw herbivore update, the expression inside max on line 76 of ECOSIM.py. -/
def herbivores_update (p : SimulationParameters) (herbivores predators : ℚ) : ℚ :=
  herbivores + herbivores * p.herbivore_birth_rate
      * (1 + p.soil_quality - 0.05 * p.temperature_variation)
    - predators * 0.01

/-- Raw predator update, the expression inside max on line 77 of ECOSIM.py. -/
def predators_update (p : SimulationParameters) (predators herbivores : ℚ) : ℚ :=
  predators + predators * p.predator_birth_rate * (herbivores / (herbivores + 1))

/-- Clamped plant update: line 75 of ECOSIM.py. -/
def stepPlants (p : SimulationParameters) (plants herbivores : ℚ) : ℚ :=
  max (plants_update p plants herbivores) 0

/-- Clamped herbivore update: line 76 of ECOSIM.py. -/
def stepHerbivores (p : SimulationParameters) (herbivores predators : ℚ) : ℚ :=
  max (herbivores_update p herbivores predators) 0

/-- Clamped predator update: line 77 of ECOSIM.py. -/
def stepPredators (p : SimulationParameters) (predators herbivores : ℚ) : ℚ :=
  max (predators_update p predators herbivores) 0

/-- One iteration of the loop body (lines 75 to 77 of ECOSIM.py). The three
variables are reassigned in order, so the plant update reads the old
herbivore count, the herbivore update reads the old predator count, and the
predator update reads the herbivore count that was just reassigned. -/
def stepState (p : SimulationParameters) (s : ℚ × ℚ × ℚ) : ℚ × ℚ × ℚ :=
  (stepPlants p s.1 s.2.1,
   stepHerbivores p s.2.1 s.2.2,
   stepPredators p s.2.2 (stepHerbivores p s.2.1 s.2.2))

/-- Modelled from the spec: the simultaneous pre-update-snapshot evaluation
that section 4.1 of the spec fixes as the contract, in which all three
updates, the predator update included, read the pre-update values of the
current step. Used only to compare against the loop body of the source. -/
def stepStateSimultaneous (p : SimulationParameters) (s : ℚ × ℚ × ℚ) : ℚ × ℚ × ℚ :=
  (stepPlants p s.1 s.2.1,
   stepHerbivores p s.2.1 s.2.2,
   stepPredators p s.2.2 s.2.1)

/-- The loop of run_simulation: iterate the step n times from state s,
appending each post-clamp triple to the three lists. -/
def runLoop (p : SimulationParameters) : ℕ → ℚ × ℚ × ℚ → List ℚ × List ℚ × List ℚ
  | 0, _ => ([], [], [])
  | n + 1, s =>
    ((stepState p s).1 :: (runLoop p n (stepState p s)).1,
     (stepState p s).2.1 :: (runLoop p n (stepState p s)).2.1,
     (stepState p s).2.2 :: (runLoop p n (stepState p s)).2.2)

/-- The initial state of the loop (line 71 of ECOSIM.py). -/
def initState (p : SimulationParameters) : ℚ × ℚ × ℚ :=
  (p.initial_plants, p.initial_herbivores, p.initial_predators)

/-- run_simulation (lines 70 to 82 of ECOSIM.py): the three population
lists after time_steps iterations from the initial populations. -/
def run_simulation (p : SimulationParameters) : List ℚ × List ℚ × List ℚ :=
  runLoop p p.time_steps (initState p)

/-- The loop state after n iterations. -/
def stateAt (p : SimulationParameters) : ℕ → ℚ × ℚ × ℚ
  | 0 => initState p
  | n + 1 => stepState p (stateAt p n)

/-- The valid parameter ranges declared in section 3 of the spec. -/
def ValidParams (p : SimulationParameters) : Prop :=
  0.01 ≤ p.plant_growth_rate ∧ p.plant_growth_rate ≤ 0.5 ∧
  0.01 ≤ p.herbivore_birth_rate ∧ p.herbivore_birth_rate ≤ 0.3 ∧
  0.01 ≤ p.predator_birth_rate ∧ p.predator_birth_rate ≤ 0.2 ∧
  50 ≤ p.initial_plants ∧ p.initial_plants ≤ 500 ∧
  10 ≤ p.initial_herbivores ∧ p.initial_herbivores ≤ 100 ∧
  5 ≤ p.initial_predators ∧ p.initial_predators ≤ 50 ∧
  10 ≤ p.time_steps ∧ p.time_steps ≤ 200 ∧
  0 ≤ p.water_availability ∧ p.water_availability ≤ 1 ∧
  -10 ≤ p.temperature_variation ∧ p.temperature_variation ≤ 40 ∧
  0.1 ≤ p.soil_quality ∧ p.soil_quality ≤ 1 ∧
  0 ≤ p.human_impact ∧ p.human_impact ≤ 1

instance (p : SimulationParameters) : Decidable (ValidParams p) := by
  unfold ValidParams; infer_instance

/-- The concrete scenario of section 8 of the spec: every slider at its
default value, except that the duration is a single step. -/
def scenarioParams : SimulationParameters where
  plant_growth_rate := 0.2
  herbivore_birth_rate := 0.1
  predator_birth_rate := 0.05
  initial_plants := 100
  initial_herbivores := 30
  initial_predators := 10
  time_steps := 1
  water_availability := 0.5
  temperature_variation := 25
  soil_quality := 0.7
  human_impact := 0.2

/-- Every slider at its default value, including the default duration of
50 steps, so that the whole parameter set lies in the declared ranges. -/
def defaultParams : SimulationParameters :=
  { scenarioParams with time_steps := 50 }

/-- Evaluation of the single step of the concrete scenario. -/
lemma scenario_eval : run_simulation scenarioParams
    = ([1293 / 10], [125 / 4], [2705 / 258]) := by
  norm_num [run_simulation, runLoop, stepState, stepPlants, stepHerbivores, stepPredators,
    plants_update, herbivores_update, predators_update, initState, scenarioParams, max_def]

/-- The default slider values satisfy the declared ranges. -/
lemma defaultParams_valid : ValidParams defaultParams := by
  norm_num [ValidParams, defaultParams, scenarioParams]

/-- All three lists produced by the loop have length n. -/
lemma runLoop_lengths (p : SimulationParameters) :
    ∀ (n : ℕ) (s : ℚ × ℚ × ℚ),
      (runLoop p n s).1.length = n ∧ (runLoop p n s).2.1.length = n ∧
        (runLoop p n s).2.2.length = n := by
  intro n
  induction n with
  | zero => intro s; simp [runLoop]
  | succ n ih =>
    intro s
    obtain ⟨h1, h2, h3⟩ := ih (stepState p s)
    simp [runLoop, h1, h2, h3]

/-- Iterating the loop body n times from a given state. -/
def stepFrom (p : SimulationParameters) : ℕ → ℚ × ℚ × ℚ → ℚ × ℚ × ℚ
  | 0, s => s
  | n + 1, s => stepFrom p n (stepState p s)

lemma stepFrom_succ (p : SimulationParameters) (n : ℕ) (s : ℚ × ℚ × ℚ) :
    stepFrom p (n + 1) s = stepState p (stepFrom p n s) := by
  induction n generalizing s with
  | zero => rfl
  | succ n ih =>
    calc stepFrom p (n + 1 + 1) s = stepFrom p (n + 1) (stepState p s) := rfl
      _ = stepState p (stepFrom p n (stepState p s)) := ih (stepState p s)
      _ = stepState p (stepFrom p (n + 1) s) := rfl

lemma stateAt_eq_stepFrom (p : SimulationParameters) (n : ℕ) :
    stateAt p n = stepFrom p n (initState p) := by
  induction n with
  | zero => rfl
  | succ n ih => rw [stateAt, ih, stepFrom_succ]

/-- The element at index t of each list produced by the loop is the
corresponding component of the state reached after t + 1 iterations. -/
lemma runLoop_get? (p : SimulationParameters) :
    ∀ (n t : ℕ) (s : ℚ × ℚ × ℚ), t < n →
      (runLoop p n s).1.get? t = some ((stepFrom p (t + 1) s).1) ∧
      (runLoop p n s).2.1.get? t = some ((stepFrom p (t + 1) s).2.1) ∧
      (runLoop p n s).2.2.get? t = some ((stepFrom p (t + 1) s).2.2) := by
  intro n
  induction n with
  | zero => intro t s ht; exact absurd ht (Nat.not_lt_zero t)
  | succ n ih =>
    intro t s ht
    cases t with
    | zero => simp [runLoop, stepFrom]
    | succ t =>
      obtain ⟨h1, h2, h3⟩ := ih t (stepState p s) (Nat.lt_of_succ_lt_succ ht)
      simp only [runLoop, List.get?_cons_succ]
      exact ⟨h1, h2, h3⟩

/-- Trace entry t is the state after t + 1 iterations of the loop body. -/
lemma run_simulation_get? (p : SimulationParameters) (t : ℕ) (ht : t < p.time_steps) :
    (run_simulation p).1.get? t = some ((stateAt p (t + 1)).1) ∧
    (run_simulation p).2.1.get? t = some ((stateAt p (t + 1)).2.1) ∧
    (run_simulation p).2.2.get? t = some ((stateAt p (t + 1)).2.2) := by
  have h := runLoop_get? p p.time_steps t (initState p) ht
  simpa [run_simulation, stateAt_eq_stepFrom] using h

lemma stepState_nonneg (p : SimulationParameters) (s : ℚ × ℚ × ℚ) :
    0 ≤ (stepState p s).1 ∧ 0 ≤ (stepState p s).2.1 ∧ 0 ≤ (stepState p s).2.2 :=
  ⟨le_max_right _ _, le_max_right _ _, le_max_right _ _⟩

lemma stateAt_nonneg (p : SimulationParameters)
    (h0 : 0 ≤ p.initial_plants ∧ 0 ≤ p.initial_herbivores ∧ 0 ≤ p.initial_predators) :
    ∀ n, 0 ≤ (stateAt p n).1 ∧ 0 ≤ (stateAt p n).2.1 ∧ 0 ≤ (stateAt p n).2.2 := by
  intro n
  cases n with
  | zero => exact h0
  | succ n => exact stepState_nonneg p (stateAt p n)

/-- The clamped predator update never decreases a non-negative predator
population when the birth rate and the herbivore count are non-negative. -/
lemma stepPredators_ge_self (p : SimulationParameters) (C H : ℚ)
    (hr : 0 ≤ p.predator_birth_rate) (hC : 0 ≤ C) (hH : 0 ≤ H) :
    C ≤ stepPredators p C H := by
  have hd : (0 : ℚ) < H + 1 := by linarith
  have hm : (0 : ℚ) ≤ H / (H + 1) := div_nonneg hH hd.le
  have hp : 0 ≤ C * p.predator_birth_rate * (H / (H + 1)) :=
    mul_nonneg (mul_nonneg hC hr) hm
  calc C ≤ predators_update p C H := by unfold predators_update; linarith
    _ ≤ stepPredators p C H := le_max_left _ _

/-- A zero plant population stays zero after one step, because the plant
growth term is proportional to the plant count itself. -/
lemma stepPlants_zero (p : SimulationParameters) (H : ℚ) (hH : 0 ≤ H) :
    stepPlants p 0 H = 0 := by
  have h : plants_update p 0 H ≤ 0 := by unfold plants_update; nlinarith
  unfold stepPlants
  exact max_eq_right h

/-- A zero herbivore population stays zero after one step. -/
lemma stepHerbivores_zero (p : SimulationParameters) (C : ℚ) (hC : 0 ≤ C) :
    stepHerbivores p 0 C = 0 := by
  have h : herbivores_update p 0 C ≤ 0 := by unfold herbivores_update; nlinarith
  unfold stepHerbivores
  exact max_eq_right h

lemma runLoop_mem_nonneg (p : SimulationParameters) :
    ∀ (n : ℕ) (s : ℚ × ℚ × ℚ),
      (∀ x ∈ (runLoop p n s).1, 0 ≤ x) ∧ (∀ x ∈ (runLoop p n s).2.1, 0 ≤ x) ∧
        (∀ x ∈ (runLoop p n s).2.2, 0 ≤ x) := by
  intro n
  induction n with
  | zero => intro s; simp [runLoop]
  | succ n ih =>
    intro s
    obtain ⟨h1, h2, h3⟩ := ih (stepState p s)
    refine ⟨?_, ?_, ?_⟩ <;> intro x hx
    · simp only [runLoop, List.mem_cons] at hx
      rcases hx with h | h
      · rw [h]; exact (stepState_nonneg p s).1
      · exact h1 x h
    · simp only [runLoop, List.mem_cons] at hx
      rcases hx with h | h
      · rw [h]; exact (stepState_nonneg p s).2.1
      · exact h2 x h
    · simp only [runLoop, List.mem_cons] at hx
      rcases hx with h | h
      · rw [h]; exact (stepState_nonneg p s).2.2
      · exact h3 x h

/-- C1: the concrete scenario of the spec does not produce the claimed
trace. The code computes herbivores = 31.25 (the value 29.35 given in
the spec is an arithmetic slip in its own formula) and computes the
predator update from the already reassigned herbivore count 31.25, not
from the pre-update count 30, so the predator entry is 2705/258 and not
10 + 10·0.05·(30/31) = 325/31. -/
theorem scenario_trace_ne_claimed :
    run_simulation scenarioParams ≠ ([1293 / 10], [587 / 20], [325 / 31]) := by
  rw [scenario_eval]
  norm_num [Prod.ext_iff]

/-- C1 (amended): for the scenario parameter set the single trace entry
(step 0) equals plants = 129.3, herbivores = 31.25 and
predators = 10 + 10·0.05·(31.25/32.25) = 2705/258, the predator update
using the already updated herbivore count 31.25. -/
theorem scenario_trace_values :
    run_simulation scenarioParams = ([1293 / 10], [125 / 4], [2705 / 258]) :=
  scenario_eval

/-- C2: counterexample to simultaneous pre-update-snapshot evaluation. On
the initial state of the concrete scenario, the loop body of the source
differs from the snapshot evaluation fixed by the spec: the predator
components disagree because line 77 reads the herbivore variable after
line 76 has reassigned it. -/
theorem step_order_counterexample :
    stepState scenarioParams (100, 30, 10)
      ≠ stepStateSimultaneous scenarioParams (100, 30, 10) := by
  norm_num [stepState, stepStateSimultaneous, stepPlants, stepHerbivores, stepPredators,
    plants_update, herbivores_update, predators_update, scenarioParams, max_def,
    Prod.ext_iff]

/-- C2 (amended): within one step, the plant update and the herbivore
update are computed from the pre-update values of the step, exactly as
the snapshot contract says, but the predator update is computed from the
already updated herbivore count of the same step. -/
theorem step_evaluation_order (p : SimulationParameters) (s : ℚ × ℚ × ℚ) :
    (stepState p s).1 = (stepStateSimultaneous p s).1 ∧
    (stepState p s).2.1 = (stepStateSimultaneous p s).2.1 ∧
    (stepState p s).2.2 = stepPredators p s.2.2 ((stepState p s).2.1) :=
  ⟨rfl, rfl, rfl⟩

/-- C3: every stored trace element is non-negative, and whenever a raw
update is negative the clamped value stored for that step is exactly 0. -/
theorem trace_nonneg_and_clamp (p : SimulationParameters) :
    (∀ x ∈ (run_simulation p).1, 0 ≤ x) ∧
    (∀ x ∈ (run_simulation p).2.1, 0 ≤ x) ∧
    (∀ x ∈ (run_simulation p).2.2, 0 ≤ x) ∧
    ∀ s : ℚ × ℚ × ℚ,
      (plants_update p s.1 s.2.1 < 0 → (stepState p s).1 = 0) ∧
      (herbivores_update p s.2.1 s.2.2 < 0 → (stepState p s).2.1 = 0) ∧
      (predators_update p s.2.2 ((stepState p s).2.1) < 0 → (stepState p s).2.2 = 0) := by
  obtain ⟨h1, h2, h3⟩ := runLoop_mem_nonneg p p.time_steps (initState p)
  refine ⟨h1, h2, h3, ?_⟩
  intro s
  exact ⟨fun h => max_eq_right h.le, fun h => max_eq_right h.le, fun h => max_eq_right h.le⟩

/-- C3 witness at the concrete scenario: the plant entry of step 0 is
non-negative. -/
theorem trace_nonneg_and_clamp_witness : (0 : ℚ) ≤ 1293 / 10 :=
  (trace_nonneg_and_clamp scenarioParams).1 (1293 / 10) (by rw [scenario_eval]; simp)

/-- C4: the three sequences returned by the simulator all have length
exactly time_steps. -/
theorem trace_lengths (p : SimulationParameters) :
    (run_simulation p).1.length = p.time_steps ∧
    (run_simulation p).2.1.length = p.time_steps ∧
    (run_simulation p).2.2.length = p.time_steps :=
  runLoop_lengths p p.time_steps (initState p)

/-- C5: for H ≥ 0 the predator growth multiplier H/(H+1) lies in [0, 1),
and the predator population increases within one step by strictly less
than predator_birth_rate times the current predator count. -/
theorem predator_saturation_bound (p : SimulationParameters) (C H : ℚ)
    (hH : 0 ≤ H) (hC : 0 < C) (hr : 0 < p.predator_birth_rate) :
    (0 ≤ H / (H + 1) ∧ H / (H + 1) < 1) ∧
    stepPredators p C H - C < p.predator_birth_rate * C := by
  have hd : (0 : ℚ) < H + 1 := by linarith
  have hm0 : (0 : ℚ) ≤ H / (H + 1) := div_nonneg hH hd.le
  have hm1 : H / (H + 1) < 1 := (div_lt_one hd).mpr (by linarith)
  refine ⟨⟨hm0, hm1⟩, ?_⟩
  have hp : 0 ≤ C * p.predator_birth_rate * (H / (H + 1)) :=
    mul_nonneg (mul_nonneg hC.le hr.le) hm0
  have hmax : stepPredators p C H = predators_update p C H := by
    unfold stepPredators
    exact max_eq_left (by unfold predators_update; linarith)
  have hlt : C * p.predator_birth_rate * (H / (H + 1)) < C * p.predator_birth_rate * 1 :=
    mul_lt_mul_of_pos_left hm1 (mul_pos hC hr)
  rw [hmax]
  unfold predators_update
  linarith

/-- C5 witness at the concrete scenario values C = 10, H = 30. -/
theorem predator_saturation_bound_witness :
    (0 ≤ (30 : ℚ) / (30 + 1) ∧ (30 : ℚ) / (30 + 1) < 1) ∧
    stepPredators scenarioParams 10 30 - 10 < scenarioParams.predator_birth_rate * 10 :=
  predator_saturation_bound scenarioParams 10 30 (by norm_num) (by norm_num)
    (by norm_num [scenarioParams])

/-- C7: the simulator is deterministic; two calls on equal parameter sets
yield equal traces. -/
theorem simulate_deterministic (p q : SimulationParameters) (h : p = q) :
    run_simulation p = run_simulation q := by rw [h]

/-- C7 witness: two calls on the scenario parameters agree. -/
theorem simulate_deterministic_witness :
    run_simulation scenarioParams = run_simulation scenarioParams :=
  simulate_deterministic scenarioParams scenarioParams rfl

/-- C6: within the declared valid ranges the simulator is total: the only
division performed, herbivores / (herbivores + 1) on line 77, always has a
positive denominator, because the herbivore count feeding it has just been
clamped to be non-negative; and the full trace of time_steps entries per
species is produced. -/
theorem simulator_total (p : SimulationParameters) (_hv : ValidParams p) :
    (∀ n : ℕ, 0 < stepHerbivores p (stateAt p n).2.1 (stateAt p n).2.2 + 1) ∧
    (run_simulation p).1.length = p.time_steps ∧
    (run_simulation p).2.1.length = p.time_steps ∧
    (run_simulation p).2.2.length = p.time_steps := by
  refine ⟨fun n => ?_, runLoop_lengths p p.time_steps (initState p)⟩
  have h : 0 ≤ stepHerbivores p (stateAt p n).2.1 (stateAt p n).2.2 := le_max_right _ _
  linarith

/-- C6 witness at the default parameter set, instantiated at step 0. -/
theorem simulator_total_witness :
    ValidParams defaultParams ∧
    0 < stepHerbivores defaultParams (stateAt defaultParams 0).2.1
        (stateAt defaultParams 0).2.2 + 1 :=
  ⟨defaultParams_valid, (simulator_total defaultParams defaultParams_valid).1 0⟩

/-- C8: with time_steps = 1 the trace contains exactly one entry per
species, namely the result of one full update-and-clamp step applied to
the initial populations; under the declared ranges for the other
parameters this entry is never the raw initial triple, since the predator
entry strictly exceeds the initial predator count. -/
theorem single_step_trace (p : SimulationParameters) (h1 : p.time_steps = 1)
    (hr : 0.01 ≤ p.predator_birth_rate) (hC : 5 ≤ p.initial_predators)
    (hH : 10 ≤ p.initial_herbivores) :
    run_simulation p =
      ([(stepState p (initState p)).1], [(stepState p (initState p)).2.1],
        [(stepState p (initState p)).2.2]) ∧
    stepState p (initState p) ≠ initState p := by
  constructor
  · unfold run_simulation
    rw [h1]
    rfl
  · intro heq
    have hH2 : (stepState p (initState p)).2.1 = p.initial_herbivores := by rw [heq]; rfl
    have h3 : (stepState p (initState p)).2.2 = p.initial_predators := by rw [heq]; rfl
    have key : (stepState p (initState p)).2.2
        = stepPredators p p.initial_predators ((stepState p (initState p)).2.1) := rfl
    rw [hH2] at key
    have hm : 0 < p.initial_herbivores / (p.initial_herbivores + 1) :=
      div_pos (by linarith) (by linarith)
    have hpos : 0 < p.initial_predators * p.predator_birth_rate *
        (p.initial_herbivores / (p.initial_herbivores + 1)) :=
      mul_pos (mul_pos (by linarith) (by linarith)) hm
    have hup : p.initial_predators
        < predators_update p p.initial_predators p.initial_herbivores := by
      unfold predators_update; linarith
    have h5 : stepPredators p p.initial_predators p.initial_herbivores
        = predators_update p p.initial_predators p.initial_herbivores := by
      unfold stepPredators
      exact max_eq_left (by linarith)
    rw [key, h5] at h3
    linarith

/-- C8 witness at the concrete scenario parameter set. -/
theorem single_step_trace_witness :
    run_simulation scenarioParams =
      ([(stepState scenarioParams (initState scenarioParams)).1],
        [(stepState scenarioParams (initState scenarioParams)).2.1],
        [(stepState scenarioParams (initState scenarioParams)).2.2]) ∧
    stepState scenarioParams (initState scenarioParams) ≠ initState scenarioParams :=
  single_step_trace scenarioParams rfl (by norm_num [scenarioParams])
    (by norm_num [scenarioParams]) (by norm_num [scenarioParams])

/-- The predator component never decreases from one loop state to the
next, given a non-negative birth rate and initial predator count. -/
lemma stateAt_predators_le_succ (p : SimulationParameters)
    (hr : 0 ≤ p.predator_birth_rate) (hC0 : 0 ≤ p.initial_predators) :
    ∀ n, (stateAt p n).2.2 ≤ (stateAt p (n + 1)).2.2 := by
  intro n
  have hC : 0 ≤ (stateAt p n).2.2 := by
    cases n with
    | zero => exact hC0
    | succ n => exact (stepState_nonneg p (stateAt p n)).2.2
  have hH : 0 ≤ stepHerbivores p (stateAt p n).2.1 (stateAt p n).2.2 := le_max_right _ _
  exact stepPredators_ge_self p _ _ hr hC hH

lemma stateAt_predators_ge_init (p : SimulationParameters)
    (hr : 0 ≤ p.predator_birth_rate) (hC0 : 0 ≤ p.initial_predators) :
    ∀ n, p.initial_predators ≤ (stateAt p n).2.2 := by
  intro n
  induction n with
  | zero => exact le_rfl
  | succ n ih => exact le_trans ih (stateAt_predators_le_succ p hr hC0 n)

/-- C9: the predator sequence of the trace is monotonically non-decreasing
and bounded below by the initial predator count: the predator update has
no subtraction term, so predators never decline during a run. -/
theorem predators_monotone (p : SimulationParameters) (hv : ValidParams p)
    (t : ℕ) (a b : ℚ)
    (ha : (run_simulation p).2.2.get? t = some a)
    (hb : (run_simulation p).2.2.get? (t + 1) = some b) :
    p.initial_predators ≤ a ∧ a ≤ b := by
  obtain ⟨-, -, -, -, hr1, -, -, -, -, -, hC1, -, -, -, -, -, -, -, -, -, -, -⟩ := hv
  have hr : 0 ≤ p.predator_birth_rate := by linarith
  have hC0 : 0 ≤ p.initial_predators := by linarith
  have hlen : (run_simulation p).2.2.length = p.time_steps :=
    (runLoop_lengths p p.time_steps (initState p)).2.2
  have ht1 : t + 1 < p.time_steps := by
    by_contra hc
    have hnone : (run_simulation p).2.2.get? (t + 1) = none :=
      List.get?_eq_none.mpr (by rw [hlen]; omega)
    rw [hnone] at hb
    exact Option.noConfusion hb
  have ht : t < p.time_steps := by omega
  have ea := (run_simulation_get? p t ht).2.2
  have eb := (run_simulation_get? p (t + 1) ht1).2.2
  have hav : a = (stateAt p (t + 1)).2.2 := by
    injection ha.symm.trans ea with h
  have hbv : b = (stateAt p (t + 1 + 1)).2.2 := by
    injection hb.symm.trans eb with h
  rw [hav, hbv]
  exact ⟨stateAt_predators_ge_init p hr hC0 (t + 1),
    stateAt_predators_le_succ p hr hC0 (t + 1)⟩

/-- C9 witness at the default parameter set, at trace indices 0 and 1. -/
theorem predators_monotone_witness :
    defaultParams.initial_predators ≤ (stateAt defaultParams 1).2.2 ∧
    (stateAt defaultParams 1).2.2 ≤ (stateAt defaultParams 2).2.2 :=
  predators_monotone defaultParams defaultParams_valid 0
    ((stateAt defaultParams 1).2.2) ((stateAt defaultParams 2).2.2)
    ((run_simulation_get? defaultParams 0
      (by norm_num [defaultParams, scenarioParams])).2.2)
    ((run_simulation_get? defaultParams 1
      (by norm_num [defaultParams, scenarioParams])).2.2)

lemma stateAt_plants_absorbing (p : SimulationParameters)
    (h0 : 0 ≤ p.initial_plants ∧ 0 ≤ p.initial_herbivores ∧ 0 ≤ p.initial_predators) :
    ∀ n m, n ≤ m → (stateAt p n).1 = 0 → (stateAt p m).1 = 0 := by
  intro n m hnm h
  induction m, hnm using Nat.le_induction with
  | base => exact h
  | succ m hnm ih =>
    have hH : 0 ≤ (stateAt p m).2.1 := (stateAt_nonneg p h0 m).2.1
    have e : (stateAt p (m + 1)).1 = stepPlants p (stateAt p m).1 (stateAt p m).2.1 := rfl
    rw [e, ih]
    exact stepPlants_zero p _ hH

lemma stateAt_herbivores_absorbing (p : SimulationParameters)
    (h0 : 0 ≤ p.initial_plants ∧ 0 ≤ p.initial_herbivores ∧ 0 ≤ p.initial_predators) :
    ∀ n m, n ≤ m → (stateAt p n).2.1 = 0 → (stateAt p m).2.1 = 0 := by
  intro n m hnm h
  induction m, hnm using Nat.le_induction with
  | base => exact h
  | succ m hnm ih =>
    have hC : 0 ≤ (stateAt p m).2.2 := (stateAt_nonneg p h0 m).2.2
    have e : (stateAt p (m + 1)).2.1
        = stepHerbivores p (stateAt p m).2.1 (stateAt p m).2.2 := rfl
    rw [e, ih]
    exact stepHerbivores_zero p _ hC

/-- C10: zero is an absorbing state for plants and for herbivores: once
the stored plant or herbivore entry of the trace is 0, every later entry
of that species is 0 as well. -/
theorem zero_absorbing (p : SimulationParameters) (hv : ValidParams p)
    (t u : ℕ) (htu : t ≤ u) (b : ℚ) :
    ((run_simulation p).1.get? t = some 0 →
      (run_simulation p).1.get? u = some b → b = 0) ∧
    ((run_simulation p).2.1.get? t = some 0 →
      (run_simulation p).2.1.get? u = some b → b = 0) := by
  obtain ⟨-, -, -, -, -, -, hP1, -, hH1, -, hC1, -, -, -, -, -, -, -, -, -, -, -⟩ := hv
  have h0 : 0 ≤ p.initial_plants ∧ 0 ≤ p.initial_herbivores ∧ 0 ≤ p.initial_predators :=
    ⟨by linarith, by linarith, by linarith⟩
  have hlen1 : (run_simulation p).1.length = p.time_steps :=
    (runLoop_lengths p p.time_steps (initState p)).1
  have hlen2 : (run_simulation p).2.1.length = p.time_steps :=
    (runLoop_lengths p p.time_steps (initState p)).2.1
  constructor
  · intro hzt hub
    have hu : u < p.time_steps := by
      by_contra hc
      have hnone : (run_simulation p).1.get? u = none :=
        List.get?_eq_none.mpr (by rw [hlen1]; omega)
      rw [hnone] at hub
      exact Option.noConfusion hub
    have ht : t < p.time_steps := by omega
    have ea := (run_simulation_get? p t ht).1
    have eb := (run_simulation_get? p u hu).1
    have hz : (stateAt p (t + 1)).1 = 0 := by
      have h := hzt.symm.trans ea
      injection h with h2
      exact h2.symm
    have hbv : b = (stateAt p (u + 1)).1 := by
      injection hub.symm.trans eb with h2
    rw [hbv]
    exact stateAt_plants_absorbing p h0 (t + 1) (u + 1) (by omega) hz
  · intro hzt hub
    have hu : u < p.time_steps := by
      by_contra hc
      have hnone : (run_simulation p).2.1.get? u = none :=
        List.get?_eq_none.mpr (by rw [hlen2]; omega)
      rw [hnone] at hub
      exact Option.noConfusion hub
    have ht : t < p.time_steps := by omega
    have ea := (run_simulation_get? p t ht).2.1
    have eb := (run_simulation_get? p u hu).2.1
    have hz : (stateAt p (t + 1)).2.1 = 0 := by
      have h := hzt.symm.trans ea
      injection h with h2
      exact h2.symm
    have hbv : b = (stateAt p (u + 1)).2.1 := by
      injection hub.symm.trans eb with h2
    rw [hbv]
    exact stateAt_herbivores_absorbing p h0 (t + 1) (u + 1) (by omega) hz

/-- A parameter set inside every declared range that drives the herbivore
population to an exact zero entry: maximal temperature variation and
minimal soil quality make the herbivore growth multiplier 0.73 per step,
while the maximal initial predator count subtracts 0.01 times a growing
predator population, so the raw herbivore update turns negative at the
fifth step and the clamp stores exactly 0 from trace index 4 onwards. -/
def extinctParams : SimulationParameters where
  plant_growth_rate := 0.01
  herbivore_birth_rate := 0.3
  predator_birth_rate := 0.2
  initial_plants := 50
  initial_herbivores := 10
  initial_predators := 50
  time_steps := 10
  water_availability := 0
  temperature_variation := 40
  soil_quality := 0.1
  human_impact := 1

lemma extinctParams_valid : ValidParams extinctParams := by
  norm_num [ValidParams, extinctParams]

/-- After five loop iterations of the extinction scenario the herbivore
count is exactly 0: the raw update at the fifth step is negative and the
clamp fires. -/
lemma extinct_herbivores_five : (stateAt extinctParams 5).2.1 = 0 := by
  have e : stateAt extinctParams 5
      = stepState extinctParams (stepState extinctParams (stepState extinctParams
          (stepState extinctParams (stepState extinctParams (initState extinctParams))))) := rfl
  rw [e]
  norm_num [stepState, stepPlants, stepHerbivores, stepPredators, plants_update,
    herbivores_update, predators_update, initState, extinctParams, max_def]

/-- C10 witness: in the extinction scenario the herbivore trace entry at
index 4 is exactly 0, and the absorbing theorem applied to the true
zero-entry fact at index 4 and the entry fact at index 5 yields that the
herbivore count of the sixth loop state is 0 as well, without evaluating
that state. -/
theorem zero_absorbing_witness :
    ValidParams extinctParams ∧ (stateAt extinctParams 6).2.1 = 0 := by
  have h4 : (run_simulation extinctParams).2.1.get? 4 = some 0 := by
    have hb := (run_simulation_get? extinctParams 4 (by norm_num [extinctParams])).2.1
    rw [hb]
    show some ((stateAt extinctParams 5).2.1) = some 0
    rw [extinct_herbivores_five]
  have h5 : (run_simulation extinctParams).2.1.get? 5
      = some ((stateAt extinctParams 6).2.1) :=
    (run_simulation_get? extinctParams 5 (by norm_num [extinctParams])).2.1
  exact ⟨extinctParams_valid,
    (zero_absorbing extinctParams extinctParams_valid 4 5 (by norm_num)
      ((stateAt extinctParams 6).2.1)).2 h4 h5⟩
